import Mathlib

/-!
Shallow embedding of `src/mailbox.rs` from the `rust-lib` repository.

The Rust code exposes two typed mailbox handles (`Mailbox<T>` and
`LinkMailbox<T>`) built on a shared selective-receive engine `receive_`.
The engine computes an effective wire tag and a millisecond wait value,
issues one `message::receive(tag, timeout_ms)` host call, and classifies
the returned `u32` discriminator (`SIGNAL = 1`, `TIMEOUT = 9027`, anything
else is a normal message whose payload is decoded from the host scratch
buffer).

We embed durations as nanosecond counts (`Nat`), `i64` tags as `Int`, the
behaviour of the host at the boundary as an explicit `HostResponse` record, and
a Rust `panic!` / failed `assert!` as the `PanicOr.panic` constructor.
-/

namespace RustLib

/-- `const SIGNAL: u32 = 1;` -/
def SIGNAL : Nat := 1

/-- `const TIMEOUT: u32 = 9027;` -/
def TIMEOUT : Nat := 9027

/-- `u32::MAX + 1`; a Rust `as u32` cast reduces the value modulo this. -/
def u32Mod : Nat := 2 ^ 32

/-- `Duration::as_millis`: a duration of `ns` nanoseconds has
`ns / 1000000` whole milliseconds (`std::time::Duration` stores
nanoseconds; `as_millis` returns the truncated millisecond count as
`u128`). -/
def durationAsMillis (ns : Nat) : Nat := ns / 1000000

/-- The `timeout_ms` computation shared by `Mailbox::receive_` and
`LinkMailbox::receive_` (`src/mailbox.rs:73-80` and `146-153`):

```
let timeout_ms = match timeout {
    // If waiting time is smaller than 1ms, round it up to 1ms.
    Some(timeout) => match timeout.as_millis() {
        0 => 1,
        other => other as u32,
    },
    None => 0,
};
```

`other` is a `u128`; the `as u32` cast truncates it modulo `2^32`. -/
def timeoutMs : Option Nat → Nat
  | some timeout =>
      match durationAsMillis timeout with
      | 0 => 1
      | other => other % u32Mod
  | none => 0

/-- The arguments of the single `message::receive(tag, timeout_ms)` host
call issued by one invocation of the engine. -/
structure HostCall where
  tag : Int
  timeout_ms : Nat
  deriving Repr, DecidableEq

/-- What the host message service does for one `receive` attempt:
the `u32` discriminator returned by `message::receive`, the `i64`
returned by `message::get_tag`, and the outcome of streaming the current
payload through `rmp_serde::from_read(MessageRw {})` (a decoded `T` or a
`decode::Error`, which we model as an opaque `Nat`). -/
structure HostResponse (T : Type) where
  messageType : Nat
  currentTag : Int
  decode : Except Nat T

/-- `enum ReceiveError { DeserializationFailed(decode::Error), Timeout }`. -/
inductive ReceiveError where
  | DeserializationFailed (e : Nat)
  | Timeout
  deriving Repr, DecidableEq

/-- A Rust value computation that may instead abort the process
(`panic!` / failed `assert!`). -/
inductive PanicOr (α : Type) where
  | panic (msg : String)
  | ok (a : α)
  deriving Repr

/-- True exactly on the `panic` constructor. -/
def PanicOr.isPanic {α : Type} : PanicOr α → Bool
  | .panic _ => true
  | .ok _ => false

/-- `enum Message<T> { Normal(Result<T, ReceiveError>), Signal(Tag) }`.
A `Tag` wraps an `i64`, embedded as `Int`. -/
inductive Message (T : Type) where
  | Normal (r : Except ReceiveError T)
  | Signal (tag : Int)
  deriving Repr

namespace Mailbox

/-- `Mailbox::receive_` (`src/mailbox.rs:71-92`): computes the wire tag
(`tag.unwrap_or(0)`) and `timeout_ms`, issues the host call, then
`assert_ne!(message_type, SIGNAL)` (an abort on violation), returns
`Err(Timeout)` on the `TIMEOUT` discriminator, and otherwise decodes the
payload. The first component is the issued host call, the second the
result of the call. -/
def receive_ {T : Type} (tag : Option Int) (timeout : Option Nat)
    (resp : HostResponse T) : HostCall × PanicOr (Except ReceiveError T) :=
  let call : HostCall := { tag := tag.getD 0, timeout_ms := timeoutMs timeout }
  let result : PanicOr (Except ReceiveError T) :=
    if resp.messageType = SIGNAL then
      .panic "assertion failed: message_type != SIGNAL"
    else if resp.messageType = TIMEOUT then
      .ok (.error .Timeout)
    else
      match resp.decode with
      | .ok result => .ok (.ok result)
      | .error decode_error => .ok (.error (.DeserializationFailed decode_error))
  (call, result)

/-- `Mailbox::receive`: `self.receive_(None, None)`. -/
def receive {T : Type} (resp : HostResponse T) :
    HostCall × PanicOr (Except ReceiveError T) :=
  receive_ none none resp

/-- `Mailbox::receive_timeout`: `self.receive_(None, Some(timeout))`. -/
def receive_timeout {T : Type} (timeout : Nat) (resp : HostResponse T) :
    HostCall × PanicOr (Except ReceiveError T) :=
  receive_ none (some timeout) resp

/-- `Mailbox::tag_receive`: `self.receive_(Some(tag.id()), None)`. -/
def tag_receive {T : Type} (tag : Int) (resp : HostResponse T) :
    HostCall × PanicOr (Except ReceiveError T) :=
  receive_ (some tag) none resp

/-- `Mailbox::tag_receive_timeout`: `self.receive_(Some(tag.id()), Some(timeout))`. -/
def tag_receive_timeout {T : Type} (tag : Int) (timeout : Nat)
    (resp : HostResponse T) : HostCall × PanicOr (Except ReceiveError T) :=
  receive_ (some tag) (some timeout) resp

end Mailbox

namespace LinkMailbox

/-- `LinkMailbox::receive_` (`src/mailbox.rs:144-170`): same wire tag and
`timeout_ms` computation and host call; the `SIGNAL` discriminator yields
`Message::Signal(Tag::from(message::get_tag()))`, `TIMEOUT` yields
`Message::Normal(Err(Timeout))`, anything else decodes the payload into a
`Message::Normal`. -/
def receive_ {T : Type} (tag : Option Int) (timeout : Option Nat)
    (resp : HostResponse T) : HostCall × Message T :=
  let call : HostCall := { tag := tag.getD 0, timeout_ms := timeoutMs timeout }
  let result : Message T :=
    if resp.messageType = SIGNAL then
      .Signal resp.currentTag
    else if resp.messageType = TIMEOUT then
      .Normal (.error .Timeout)
    else
      match resp.decode with
      | .ok result => .Normal (.ok result)
      | .error decode_error => .Normal (.error (.DeserializationFailed decode_error))
  (call, result)

/-- `LinkMailbox::receive`: `self.receive_(None, None)`. -/
def receive {T : Type} (resp : HostResponse T) : HostCall × Message T :=
  receive_ none none resp

/-- `LinkMailbox::receive_timeout`: `self.receive_(None, Some(timeout))`. -/
def receive_timeout {T : Type} (timeout : Nat) (resp : HostResponse T) :
    HostCall × Message T :=
  receive_ none (some timeout) resp

/-- `LinkMailbox::tag_receive`: `self.receive_(Some(tag.id()), None)`. -/
def tag_receive {T : Type} (tag : Int) (resp : HostResponse T) :
    HostCall × Message T :=
  receive_ (some tag) none resp

/-- `LinkMailbox::tag_receive_timeout`: `self.receive_(Some(tag.id()), Some(timeout))`. -/
def tag_receive_timeout {T : Type} (tag : Int) (timeout : Nat)
    (resp : HostResponse T) : HostCall × Message T :=
  receive_ (some tag) (some timeout) resp

end LinkMailbox

/-- `Message::is_signal`. -/
def Message.is_signal {T : Type} : Message T → Bool
  | .Normal _ => false
  | .Signal _ => true

/-- `Message::normal_or_unwrap` (`src/mailbox.rs:210-215`): returns the
wrapped normal result, panics on a `Signal` value. -/
def Message.normal_or_unwrap {T : Type} :
    Message T → PanicOr (Except ReceiveError T)
  | .Normal message => .ok message
  | .Signal _ => .panic "Message is of type Signal"

/-- The process-wide state touched by the mode transformer: the `u32`
argument last passed to `process::die_when_link_dies` (0 = trap link
death as a signal, 1 = die when a link dies, i.e. *terminate*). -/
structure ProcState where
  dieWhenLinkDies : Nat
  deriving Repr, DecidableEq

/-- The two handle types, as returned by the transformer operations. -/
inductive HandleKind where
  | mailbox
  | linkMailbox
  deriving Repr, DecidableEq

/-- `impl TransformMailbox for Mailbox { fn catch_link_panic }`
(`src/mailbox.rs:96-99`): calls `process::die_when_link_dies(0)` and
returns a `LinkMailbox`. Result: new state, resulting handle kind, and
the list of `die_when_link_dies` arguments issued. -/
def Mailbox.catch_link_panic (_s : ProcState) :
    ProcState × HandleKind × List Nat :=
  ({ dieWhenLinkDies := 0 }, .linkMailbox, [0])

/-- `impl TransformMailbox for Mailbox { fn panic_if_link_panics }`
(`src/mailbox.rs:100-102`): returns `self`; no host call. -/
def Mailbox.panic_if_link_panics (s : ProcState) :
    ProcState × HandleKind × List Nat :=
  (s, .mailbox, [])

/-- `impl TransformMailbox for LinkMailbox { fn catch_link_panic }`
(`src/mailbox.rs:174-176`): returns `self`; no host call. -/
def LinkMailbox.catch_link_panic (s : ProcState) :
    ProcState × HandleKind × List Nat :=
  (s, .linkMailbox, [])

/-- `impl TransformMailbox for LinkMailbox { fn panic_if_link_panics }`
(`src/mailbox.rs:177-180`): calls `process::die_when_link_dies(1)` and
returns a fresh `Mailbox`. -/
def LinkMailbox.panic_if_link_panics (_s : ProcState) :
    ProcState × HandleKind × List Nat :=
  ({ dieWhenLinkDies := 1 }, .mailbox, [1])

end RustLib

namespace RustLib

/-- **C1** (code bug witness): for a timeout of `2^32` milliseconds
(`4294967296000000` nanoseconds, about 49.7 days) the engine passes the
wait value `0` to the host — the block-forever sentinel — because
`as_millis() as u32` silently truncates modulo `2^32`. The issued host
call is identical to the one for `timeout = none` (block indefinitely),
contradicting the claim that the wait is finite, nonzero and bounded by
the requested duration. -/
theorem receive_timeout_two_pow_32_ms_requests_block_forever :
    timeoutMs (some (4294967296 * 1000000)) = 0 ∧
    (Mailbox.receive_timeout (T := Nat) (4294967296 * 1000000) ⟨0, 0, .error 0⟩).1
      = (Mailbox.receive (T := Nat) ⟨0, 0, .error 0⟩).1 ∧
    (LinkMailbox.receive_timeout (T := Nat) (4294967296 * 1000000) ⟨0, 0, .error 0⟩).1
      = (LinkMailbox.receive (T := Nat) ⟨0, 0, .error 0⟩).1 := by
  refine ⟨?_, rfl, rfl⟩
  rfl

/-- **C2**: any duration strictly below one millisecond (`d < 1000000`
nanoseconds, including `d = 0`) is rounded up to a wait of exactly 1 ms,
and `receive_timeout` with duration 0 issues the same host call as
`receive_timeout` with the smallest nonzero duration (1 ns), on both
handles; the wait requested is never 0. -/
theorem sub_millisecond_timeout_rounds_up_to_one_ms {T : Type}
    (d : Nat) (h : d < 1000000) (resp : HostResponse T) :
    (Mailbox.receive_timeout d resp).1.timeout_ms = 1 ∧
    (LinkMailbox.receive_timeout d resp).1.timeout_ms = 1 ∧
    (Mailbox.receive_timeout 0 resp).1 = (Mailbox.receive_timeout 1 resp).1 ∧
    (LinkMailbox.receive_timeout 0 resp).1 = (LinkMailbox.receive_timeout 1 resp).1 := by
  have hm : durationAsMillis d = 0 := Nat.div_eq_of_lt h
  refine ⟨?_, ?_, rfl, rfl⟩ <;>
    simp [Mailbox.receive_timeout, LinkMailbox.receive_timeout,
      Mailbox.receive_, LinkMailbox.receive_, timeoutMs, hm]

/-- Witness for the sub-millisecond rounding theorem at the concrete
duration `d = 5` nanoseconds. -/
theorem sub_millisecond_timeout_rounds_up_to_one_ms_witness :
    5 < 1000000 ∧
    ((Mailbox.receive_timeout (T := Nat) 5 ⟨0, 0, .error 0⟩).1.timeout_ms = 1 ∧
     (LinkMailbox.receive_timeout (T := Nat) 5 ⟨0, 0, .error 0⟩).1.timeout_ms = 1 ∧
     (Mailbox.receive_timeout (T := Nat) 0 ⟨0, 0, .error 0⟩).1
       = (Mailbox.receive_timeout (T := Nat) 1 ⟨0, 0, .error 0⟩).1 ∧
     (LinkMailbox.receive_timeout (T := Nat) 0 ⟨0, 0, .error 0⟩).1
       = (LinkMailbox.receive_timeout (T := Nat) 1 ⟨0, 0, .error 0⟩).1) :=
  ⟨by decide, sub_millisecond_timeout_rounds_up_to_one_ms 5 (by decide) ⟨0, 0, .error 0⟩⟩

/-- **C3**: a `Mailbox` receive aborts (failed assertion) exactly when the
host returns the `SIGNAL` discriminator; for every other discriminator the
call produces a value. Under the host guarantee that `SIGNAL` never
reaches a non-trapping handle, the abort branch is unreachable. -/
theorem mailbox_receive_panics_iff_signal {T : Type}
    (tag : Option Int) (timeout : Option Nat) (resp : HostResponse T) :
    (Mailbox.receive_ tag timeout resp).2.isPanic = true ↔
      resp.messageType = SIGNAL := by
  have hts : TIMEOUT ≠ SIGNAL := by decide
  unfold Mailbox.receive_
  by_cases h1 : resp.messageType = SIGNAL
  · simp [h1, PanicOr.isPanic]
  · by_cases h2 : resp.messageType = TIMEOUT
    · simp [h1, h2, hts, PanicOr.isPanic]
    · cases hd : resp.decode <;> simp [h1, h2, hd, PanicOr.isPanic]

/-- **C4**: when the host returns the `SIGNAL` discriminator, a
`LinkMailbox` receive returns `Message.Signal` carrying exactly the tag
fetched by `message::get_tag`, whatever the payload decode would have
produced (the decode field is universally quantified, so no decode is
consulted). -/
theorem link_mailbox_signal_returns_current_tag {T : Type}
    (tag : Option Int) (timeout : Option Nat) (ctag : Int) (d : Except Nat T) :
    (LinkMailbox.receive_ tag timeout ⟨SIGNAL, ctag, d⟩).2 = .Signal ctag := by
  simp [LinkMailbox.receive_]

/-- **C5**: a receive with no tag filter and a receive with literal tag 0
issue identical host calls, whose wire tag is 0, on both handles and for
both the blocking and the timeout-bounded entry points. -/
theorem wildcard_and_tag_zero_issue_same_host_call {T : Type}
    (timeout : Option Nat) (t : Nat) (resp : HostResponse T) :
    (Mailbox.receive_ none timeout resp).1 = (Mailbox.receive_ (some 0) timeout resp).1 ∧
    (Mailbox.receive_ none timeout resp).1.tag = 0 ∧
    (Mailbox.receive resp).1 = (Mailbox.tag_receive 0 resp).1 ∧
    (Mailbox.receive_timeout t resp).1 = (Mailbox.tag_receive_timeout 0 t resp).1 ∧
    (LinkMailbox.receive_ none timeout resp).1 = (LinkMailbox.receive_ (some 0) timeout resp).1 ∧
    (LinkMailbox.receive_ none timeout resp).1.tag = 0 ∧
    (LinkMailbox.receive resp).1 = (LinkMailbox.tag_receive 0 resp).1 ∧
    (LinkMailbox.receive_timeout t resp).1 = (LinkMailbox.tag_receive_timeout 0 t resp).1 :=
  ⟨rfl, rfl, rfl, rfl, rfl, rfl, rfl, rfl⟩

/-- **C6**: the result of a receive is the Timeout error exactly when the
host returns the `TIMEOUT` discriminator (9027): `Err(Timeout)` on the
non-trapping handle, `Normal(Err(Timeout))` on the trapping handle; and on
that discriminator the result is the same for every possible decode
outcome, so no payload decode is consulted. -/
theorem timeout_result_iff_timeout_discriminator {T : Type}
    (tag : Option Int) (timeout : Option Nat) (resp : HostResponse T)
    (ctag : Int) (d : Except Nat T) :
    ((Mailbox.receive_ tag timeout resp).2 = .ok (.error .Timeout) ↔
      resp.messageType = TIMEOUT) ∧
    ((LinkMailbox.receive_ tag timeout resp).2 = .Normal (.error .Timeout) ↔
      resp.messageType = TIMEOUT) ∧
    (Mailbox.receive_ tag timeout ⟨TIMEOUT, ctag, d⟩).2 = .ok (.error .Timeout) ∧
    (LinkMailbox.receive_ tag timeout ⟨TIMEOUT, ctag, d⟩).2 = .Normal (.error .Timeout) := by
  have hts : TIMEOUT ≠ SIGNAL := by decide
  have hst : SIGNAL ≠ TIMEOUT := by decide
  refine ⟨?_, ?_, by simp [Mailbox.receive_, hts], by simp [LinkMailbox.receive_, hts]⟩
  · by_cases h1 : resp.messageType = SIGNAL
    · simp [Mailbox.receive_, h1, hst]
    · by_cases h2 : resp.messageType = TIMEOUT
      · simp [Mailbox.receive_, h1, h2, hts]
      · cases hd : resp.decode <;> simp [Mailbox.receive_, h1, h2, hd]
  · by_cases h1 : resp.messageType = SIGNAL
    · simp [LinkMailbox.receive_, h1, hst]
    · by_cases h2 : resp.messageType = TIMEOUT
      · simp [LinkMailbox.receive_, h1, h2, hts]
      · cases hd : resp.decode <;> simp [LinkMailbox.receive_, h1, h2, hd]

/-- **C7**: when the host returns a discriminator that is neither `SIGNAL`
nor `TIMEOUT`, the payload is decoded: a successful decode is returned as
the successful outcome and a failed decode as the recoverable
`DeserializationFailed` error — never an abort — on both handles. -/
theorem normal_message_decodes_payload {T : Type}
    (tag : Option Int) (timeout : Option Nat) (mt : Nat) (ctag : Int)
    (v : T) (e : Nat) (h1 : mt ≠ SIGNAL) (h2 : mt ≠ TIMEOUT) :
    (Mailbox.receive_ tag timeout (⟨mt, ctag, .ok v⟩ : HostResponse T)).2
      = .ok (.ok v) ∧
    (Mailbox.receive_ tag timeout (⟨mt, ctag, .error e⟩ : HostResponse T)).2
      = .ok (.error (.DeserializationFailed e)) ∧
    (LinkMailbox.receive_ tag timeout (⟨mt, ctag, .ok v⟩ : HostResponse T)).2
      = .Normal (.ok v) ∧
    (LinkMailbox.receive_ tag timeout (⟨mt, ctag, .error e⟩ : HostResponse T)).2
      = .Normal (.error (.DeserializationFailed e)) := by
  refine ⟨?_, ?_, ?_, ?_⟩ <;>
    simp [Mailbox.receive_, LinkMailbox.receive_, h1, h2]

/-- Witness for the normal-message decode theorem at discriminator 0,
payload 42, decode error 7. -/
theorem normal_message_decodes_payload_witness :
    (0 ≠ SIGNAL ∧ 0 ≠ TIMEOUT) ∧
    ((Mailbox.receive_ (T := Nat) none none ⟨0, 0, .ok 42⟩).2 = .ok (.ok 42) ∧
     (Mailbox.receive_ (T := Nat) none none ⟨0, 0, .error 7⟩).2
       = .ok (.error (.DeserializationFailed 7)) ∧
     (LinkMailbox.receive_ (T := Nat) none none ⟨0, 0, .ok 42⟩).2 = .Normal (.ok 42) ∧
     (LinkMailbox.receive_ (T := Nat) none none ⟨0, 0, .error 7⟩).2
       = .Normal (.error (.DeserializationFailed 7))) :=
  ⟨⟨by decide, by decide⟩,
    normal_message_decodes_payload none none 0 0 42 7 (by decide) (by decide)⟩

/-- **C8**: `normal_or_unwrap` returns the wrapped payload-or-error value
unchanged on a `Normal` outcome and panics on a `Signal` outcome. -/
theorem normal_or_unwrap_spec {T : Type} (m : Except ReceiveError T) (t : Int) :
    (Message.Normal m).normal_or_unwrap = .ok m ∧
    (Message.Signal t : Message T).normal_or_unwrap
      = .panic "Message is of type Signal" ∧
    ((Message.Signal t : Message T).normal_or_unwrap).isPanic = true :=
  ⟨rfl, rfl, rfl⟩

/-- **C9**: enabling trapping on a non-trapping handle and then disabling
it on the result sets the link-mode flag back to 1 (*terminate*, the value
it had for the original non-trapping handle) and yields a non-trapping
handle — in particular starting from the terminate state the flag is
restored exactly; and both identity directions return an equivalent handle
of the same kind while issuing no `die_when_link_dies` call at all. -/
theorem transformer_round_trip_and_identities (s : ProcState) :
    (LinkMailbox.panic_if_link_panics (Mailbox.catch_link_panic s).1).1.dieWhenLinkDies = 1 ∧
    (LinkMailbox.panic_if_link_panics (Mailbox.catch_link_panic s).1).2.1 = .mailbox ∧
    (LinkMailbox.panic_if_link_panics (Mailbox.catch_link_panic ⟨1⟩).1).1 = ⟨1⟩ ∧
    LinkMailbox.catch_link_panic s = (s, .linkMailbox, []) ∧
    Mailbox.panic_if_link_panics s = (s, .mailbox, []) :=
  ⟨rfl, rfl, rfl, rfl, rfl⟩

/-- **C10**: every discriminator other than `SIGNAL` (1) and `TIMEOUT`
(9027) is treated as a normal message by both handles: the result equals
the result for the ordinary normal-message discriminator 0, the
non-trapping handle never aborts, and the trapping handle never reports a
signal. -/
theorem unknown_discriminator_means_normal_message {T : Type}
    (tag : Option Int) (timeout : Option Nat) (mt : Nat) (ctag : Int)
    (dec : Except Nat T) (h1 : mt ≠ SIGNAL) (h2 : mt ≠ TIMEOUT) :
    (Mailbox.receive_ tag timeout ⟨mt, ctag, dec⟩).2
      = (Mailbox.receive_ tag timeout ⟨0, ctag, dec⟩).2 ∧
    (Mailbox.receive_ tag timeout ⟨mt, ctag, dec⟩).2.isPanic = false ∧
    (LinkMailbox.receive_ tag timeout ⟨mt, ctag, dec⟩).2
      = (LinkMailbox.receive_ tag timeout ⟨0, ctag, dec⟩).2 ∧
    (LinkMailbox.receive_ tag timeout ⟨mt, ctag, dec⟩).2.is_signal = false := by
  have h0s : (0 : Nat) ≠ SIGNAL := by decide
  have h0t : (0 : Nat) ≠ TIMEOUT := by decide
  refine ⟨?_, ?_, ?_, ?_⟩ <;>
    cases hd : dec <;>
      simp [Mailbox.receive_, LinkMailbox.receive_, h1, h2, h0s, h0t, hd,
        PanicOr.isPanic, Message.is_signal]

/-- Witness for the unknown-discriminator theorem at discriminator 5. -/
theorem unknown_discriminator_means_normal_message_witness :
    (5 ≠ SIGNAL ∧ 5 ≠ TIMEOUT) ∧
    ((Mailbox.receive_ (T := Nat) none none ⟨5, 0, .ok 3⟩).2
       = (Mailbox.receive_ (T := Nat) none none ⟨0, 0, .ok 3⟩).2 ∧
     (Mailbox.receive_ (T := Nat) none none ⟨5, 0, .ok 3⟩).2.isPanic = false ∧
     (LinkMailbox.receive_ (T := Nat) none none ⟨5, 0, .ok 3⟩).2
       = (LinkMailbox.receive_ (T := Nat) none none ⟨0, 0, .ok 3⟩).2 ∧
     (LinkMailbox.receive_ (T := Nat) none none ⟨5, 0, .ok 3⟩).2.is_signal = false) :=
  ⟨⟨by decide, by decide⟩,
    unknown_discriminator_means_normal_message none none 5 0 (.ok 3)
      (by decide) (by decide)⟩

end RustLib
